import Mathlib

/-!
Shallow embedding of the whisper-worker service (src/whisper-worker/app.py):
the idle-shutdown watchdog, the timestamp formatters, the subtitle
renderers, and the transcription gateway's dispatch, validation and
error-handling logic.

Conventions of the embedding:
* Python floats are modelled as rationals.  All four component
  extractions in the timestamp formatters apply Python `int()` to a
  non-negative value (or to the already-integral result of a floor
  division), where truncation coincides with the floor, so each is
  modelled with the mathematical floor.
* Python `a % m` for a positive modulus `m` is `a - m * ⌊a / m⌋`
  (result in `[0, m)` regardless of the sign of `a`); this is `pyMod`.
* Wall-clock time for the watchdog is modelled as natural-number
  seconds; `threading.Timer(T, f)` started at time `t` is a pending
  deadline `t + T` that runs `f` once when reached, unless cancelled.
* The opaque external inference call is a parameter of type
  `Except String WhisperResult`: `Except.error msg` stands for the call
  raising an exception whose string form is `msg`.
-/

/-- Python `a % m` for a positive modulus: `a - m * floor (a / m)`. -/
def pyMod (a m : ℚ) : ℚ := a - m * ⌊a / m⌋

/-- Left-pad a string with zeros up to width `w` (no-op when already wide
enough), as Python's zero-padded formatting does for the digits. -/
def zfill (w : Nat) (s : String) : String :=
  if w ≤ s.length then s else String.mk (List.replicate (w - s.length) '0') ++ s

/-- Python `f"%0wd" % n` for an integer `n`: the decimal digits of `n`
zero-padded to a minimum width `w`, with a leading minus sign counted
inside the width when `n` is negative. -/
def formatInt (w : Nat) (n : ℤ) : String :=
  if n < 0 then "-" ++ zfill (w - 1) (toString n.natAbs) else zfill w (toString n.natAbs)

/-- Embedding of `format_timestamp_srt` (app.py lines 211-217).
`hours = int(seconds // 3600)`, `minutes = int((seconds % 3600) // 60)`,
`secs = int(seconds % 60)`, `millis = int((seconds % 1) * 1000)`,
rendered as `HH:MM:SS,mmm` with widths 2, 2, 2, 3. -/
def format_timestamp_srt (seconds : ℚ) : String :=
  let hours : ℤ := ⌊seconds / 3600⌋
  let minutes : ℤ := ⌊pyMod seconds 3600 / 60⌋
  let secs : ℤ := ⌊pyMod seconds 60⌋
  let millis : ℤ := ⌊pyMod seconds 1 * 1000⌋
  formatInt 2 hours ++ ":" ++ formatInt 2 minutes ++ ":" ++ formatInt 2 secs
    ++ "," ++ formatInt 3 millis

/-- Embedding of `format_timestamp_vtt` (app.py lines 219-225): identical
computation, rendered as `HH:MM:SS.mmm` (period before the milliseconds). -/
def format_timestamp_vtt (seconds : ℚ) : String :=
  let hours : ℤ := ⌊seconds / 3600⌋
  let minutes : ℤ := ⌊pyMod seconds 3600 / 60⌋
  let secs : ℤ := ⌊pyMod seconds 60⌋
  let millis : ℤ := ⌊pyMod seconds 1 * 1000⌋
  formatInt 2 hours ++ ":" ++ formatInt 2 minutes ++ ":" ++ formatInt 2 secs
    ++ "." ++ formatInt 3 millis

/-- Python `str.strip()` with no argument: drop leading and trailing
whitespace, modelled character by character on the text. -/
def pyStrip (s : String) : String :=
  String.mk (((s.toList.dropWhile Char.isWhitespace).reverse.dropWhile
    Char.isWhitespace).reverse)

/-- One timestamped span of the transcription, as the renderers read it
from a Whisper segment dict: `segment["start"]`, `segment["end"]`,
`segment["text"]`. -/
structure Segment where
  start : ℚ
  «end» : ℚ
  text : String

/-- The structured result of the external inference call: the full text,
the segment list, and any further key/value fields of the result dict the
renderers never touch (carried opaquely, so that a pass-through response
visibly preserves them). -/
structure WhisperResult where
  text : String
  segments : List Segment
  extra : List (String × String)

/-- The list `srt_lines` that `generate_srt` (app.py lines 178-193) builds:
for each segment, enumerated from 1, four entries: the caption index, the
time range line, the stripped text, and an empty separator entry. -/
def srt_lines (result : WhisperResult) : List String :=
  (List.enumFrom 1 result.segments).flatMap fun p =>
    [toString p.1,
     format_timestamp_srt p.2.start ++ " --> " ++ format_timestamp_srt p.2.«end»,
     pyStrip p.2.text,
     ""]

/-- Embedding of `generate_srt`: the lines joined with a newline. -/
def generate_srt (result : WhisperResult) : String :=
  String.intercalate "\n" (srt_lines result)

/-- The list `vtt_lines` that `generate_vtt` (app.py lines 195-209) builds:
the header entries `WEBVTT` and an empty entry, then per segment the time
range line, the stripped text, and an empty separator entry. -/
def vtt_lines (result : WhisperResult) : List String :=
  ["WEBVTT", ""] ++ result.segments.flatMap fun seg =>
    [format_timestamp_vtt seg.start ++ " --> " ++ format_timestamp_vtt seg.«end»,
     pyStrip seg.text,
     ""]

/-- Embedding of `generate_vtt`: the lines joined with a newline. -/
def generate_vtt (result : WhisperResult) : String :=
  String.intercalate "\n" (vtt_lines result)

/-- The JSON body of a successful `/transcribe` response.
`textOnly t` is `JSONResponse` with content a one-field object whose
`text` field is `t`; `fullResult r` is `JSONResponse` whose content is the
whole inference result dict, unchanged; `subtitle t f` is `JSONResponse`
with a two-field object, `text` holding the rendered subtitle string `t`
and `format` holding the format name `f`. -/
inductive Body where
  | textOnly (text : String)
  | fullResult (result : WhisperResult)
  | subtitle (text : String) (format : String)

/-- An HTTP reply of the gateway: success with a JSON body, or an
`HTTPException` with a status code and a detail string. -/
inductive Response where
  | ok (body : Body)
  | httpError (status : Nat) (detail : String)

/-- The declared default of the `response_format` form field
(app.py line 88). -/
def default_response_format : String := "verbose_json"

/-- The response-format dispatch of `transcribe` (app.py lines 137-165):
`json` and `text` both return only the text, `verbose_json` passes the full
result through, `srt` and `vtt` wrap the rendered subtitles, and anything
else falls back to the full-result pass-through. -/
def formatResponse (response_format : String) (result : WhisperResult) : Body :=
  if response_format = "json" then Body.textOnly result.text
  else if response_format = "text" then Body.textOnly result.text
  else if response_format = "verbose_json" then Body.fullResult result
  else if response_format = "srt" then Body.subtitle (generate_srt result) "srt"
  else if response_format = "vtt" then Body.subtitle (generate_vtt result) "vtt"
  else Body.fullResult result

/-- Index of the last occurrence of `c` in the character list, `-1` when
absent: Python `str.rfind` restricted to a single character. -/
def rfindChar : List Char → Char → ℤ
  | [], _ => -1
  | a :: as, c =>
    let r := rfindChar as c
    if 0 ≤ r then r + 1 else if a = c then 0 else -1

/-- The extension part of `os.path.splitext` on a POSIX path: the text from
the last dot on, provided that dot lies after the last path separator and
at least one earlier character of the base name is not itself a dot
(so leading dots of a hidden file never start an extension). -/
def splitext_ext (p : String) : String :=
  let l := p.toList
  let sepIndex := rfindChar l '/'
  let dotIndex := rfindChar l '.'
  if sepIndex < dotIndex then
    if ((l.drop (sepIndex + 1).toNat).take (dotIndex - (sepIndex + 1)).toNat).any
        (fun c => c ≠ '.') then
      String.mk (l.drop dotIndex.toNat)
    else ""
  else ""

/-- Python `str.lower()`, modelled character by character (the ASCII case
mapping, which is all the extension comparison can distinguish). -/
def pyLower (s : String) : String := String.mk (s.toList.map Char.toLower)

/-- The allow-list of upload extensions (app.py line 109). -/
def allowed_extensions : List String :=
  [".mp3", ".wav", ".webm", ".ogg", ".flac", ".m4a", ".mp4"]

/-- `os.path.splitext(file.filename)[1].lower() if file.filename else ''`
(app.py line 110); an absent or empty filename is falsy in Python. -/
def file_ext (filename : Option String) : String :=
  match filename with
  | some f => if f = "" then "" else pyLower (splitext_ext f)
  | none => ""

/-- What one call of the `transcribe` handler did: whether it reset the
idle watchdog, whether the request-scoped temporary file was created,
whether the `finally` block attempted its deletion, whether the deletion
succeeded, and the HTTP response. -/
structure TranscribeOutcome where
  timerReset : Bool
  tempCreated : Bool
  cleanupAttempted : Bool
  tempDeleted : Bool
  response : Response

/-- Embedding of the `transcribe` handler (app.py lines 84-176).
The handler first resets the shutdown timer, then rejects with 503 when
the model is not loaded, then validates the extension against the
allow-list (400 naming the list), then writes the upload to a temporary
file and runs inference; an inference exception becomes a 500 carrying the
original message, a success is dispatched by `formatResponse`; in both
cases the `finally` block attempts to delete the temporary file, and a
deletion failure (`unlinkFails`) is swallowed after a log line. -/
def transcribe (modelLoaded : Bool) (filename : Option String)
    (response_format : String) (inference : Except String WhisperResult)
    (unlinkFails : Bool) : TranscribeOutcome :=
  if modelLoaded = false then
    ⟨true, false, false, false, Response.httpError 503 "Whisper model not loaded"⟩
  else if file_ext filename ∈ allowed_extensions then
    match inference with
    | Except.error e =>
      ⟨true, true, true, !unlinkFails,
        Response.httpError 500 ("Transcription failed: " ++ e)⟩
    | Except.ok result =>
      ⟨true, true, true, !unlinkFails, Response.ok (formatResponse response_format result)⟩
  else
    ⟨true, false, false, false,
      Response.httpError 400
        ("Invalid file type. Allowed extensions: "
          ++ String.intercalate ", " allowed_extensions)⟩

/-- The module-level watchdog state of app.py: `last_request_time`, the
pending `shutdown_timer` as the absolute deadline of its scheduled
callback (`none` when no timer is pending), and how many times the
shutdown callback has run (sent SIGTERM). -/
structure WatchdogState where
  lastRequestTime : Nat
  shutdownTimer : Option Nat
  firedCount : Nat

/-- Embedding of `reset_shutdown_timer` (app.py lines 29-37), called at
wall-clock time `now`: under the lock it stores the current time and
cancels a pending timer.  It does not start a new timer. -/
def reset_shutdown_timer (now : Nat) (s : WatchdogState) : WatchdogState :=
  { s with lastRequestTime := now, shutdownTimer := none }

/-- Embedding of `schedule_shutdown` (app.py lines 39-54), called at
wall-clock time `now` with idle timeout `T`: under the lock it cancels a
pending timer and starts a fresh one due at `now + T`. -/
def schedule_shutdown (T now : Nat) (s : WatchdogState) : WatchdogState :=
  { s with shutdownTimer := some (now + T) }

/-- A pending timer whose deadline has been reached runs its callback:
the shutdown fires once (SIGTERM) and the timer is spent. -/
def fireIfDue (now : Nat) (s : WatchdogState) : WatchdogState :=
  match s.shutdownTimer with
  | some d =>
    if d ≤ now then { s with shutdownTimer := none, firedCount := s.firedCount + 1 }
    else s
  | none => s

/-- The two operations the service ever performs on the watchdog state. -/
inductive WEvent where
  | reset
  | schedule

/-- One timed event against the watchdog: any timer whose deadline falls
at or before the event's time fires first, then the event's operation
runs. -/
def wstep (T : Nat) (s : WatchdogState) (e : Nat × WEvent) : WatchdogState :=
  let s' := fireIfDue e.1 s
  match e.2 with
  | WEvent.reset => reset_shutdown_timer e.1 s'
  | WEvent.schedule => schedule_shutdown T e.1 s'

/-- The state before startup: no request seen, no timer pending,
never fired. -/
def initialWatchdog : WatchdogState := ⟨0, none, 0⟩

/-- Run the watchdog through a time-ordered list of events with idle
timeout `T`, then let wall-clock time advance to `tEnd`, firing a pending
timer whose deadline has passed. -/
def runWatchdog (T : Nat) (events : List (Nat × WEvent)) (tEnd : Nat) : WatchdogState :=
  fireIfDue tEnd (events.foldl (wstep T) initialWatchdog)

/-- Helper: a state with no pending timer is unchanged by the passage of
time. -/
theorem fireIfDue_of_none (tEnd : Nat) (s : WatchdogState)
    (h : s.shutdownTimer = none) : fireIfDue tEnd s = s := by
  cases s with
  | mk l sh f =>
    simp only at h
    subst h
    rfl

/-- C1: in the code, `reset_shutdown_timer` cancels the pending countdown
but never starts a new one (`schedule_shutdown` runs only at startup), so
after any trace whose last event is a reset no timer is pending and no
amount of further idle time can ever fire the shutdown — against the
claim that a gap of at least the timeout after the most recent activity
causes exactly one firing. -/
theorem watchdog_reset_cancels_and_never_rearms (T : Nat)
    (es : List (Nat × WEvent)) (t tEnd : Nat) :
    (List.foldl (wstep T) initialWatchdog (es ++ [(t, WEvent.reset)])).shutdownTimer
      = none ∧
    (runWatchdog T (es ++ [(t, WEvent.reset)]) tEnd).firedCount
      = (List.foldl (wstep T) initialWatchdog (es ++ [(t, WEvent.reset)])).firedCount := by
  have hnone : (List.foldl (wstep T) initialWatchdog
      (es ++ [(t, WEvent.reset)])).shutdownTimer = none := by
    rw [List.foldl_append]
    rfl
  refine ⟨hnone, ?_⟩
  unfold runWatchdog
  rw [fireIfDue_of_none tEnd _ hnone]

/-- C2 counterexample: on an empty segment list the VTT renderer returns
the header followed by a single newline, not two. -/
theorem generate_vtt_empty_single_newline :
    generate_vtt ⟨"", [], []⟩ = "WEBVTT\n" ∧ generate_vtt ⟨"", [], []⟩ ≠ "WEBVTT\n\n" := by
  exact ⟨rfl, by decide⟩

/-- C2 (amended): on a result with no segments, the SRT renderer returns
the empty string and the VTT renderer returns the string WEBVTT followed
by one newline character. -/
theorem render_empty_segments (r : WhisperResult) (h : r.segments = []) :
    generate_srt r = "" ∧ generate_vtt r = "WEBVTT\n" := by
  cases r with
  | mk tx segs ex =>
    simp only at h
    subst h
    exact ⟨rfl, rfl⟩

theorem render_empty_segments_witness :
    generate_srt ⟨"", [], []⟩ = "" ∧ generate_vtt ⟨"", [], []⟩ = "WEBVTT\n" :=
  render_empty_segments ⟨"", [], []⟩ rfl

/-- C7: every response-format value outside the five recognized ones falls
back to the full-result pass-through (all fields of the result preserved,
the unmodeled `extra` ones included); the declared default is
`verbose_json`, which is itself the full-result pass-through. -/
theorem formatResponse_default_and_fallback (fmt : String)
    (h : fmt ∉ (["json", "text", "verbose_json", "srt", "vtt"] : List String)) :
    ∀ result : WhisperResult,
      formatResponse fmt result = Body.fullResult result ∧
      default_response_format = "verbose_json" ∧
      formatResponse default_response_format result = Body.fullResult result := by
  intro result
  simp only [List.mem_cons, List.not_mem_nil, or_false, not_or] at h
  obtain ⟨h1, h2, h3, h4, h5⟩ := h
  refine ⟨?_, rfl, rfl⟩
  simp [formatResponse, h1, h2, h3, h4, h5]

theorem formatResponse_default_and_fallback_witness :
    formatResponse "xml" ⟨"hi there", [], [("language", "en")]⟩
      = Body.fullResult ⟨"hi there", [], [("language", "en")]⟩ :=
  (formatResponse_default_and_fallback "xml" (by decide)
    ⟨"hi there", [], [("language", "en")]⟩).1

/-- C8: with the model loaded, a filename whose (lowercased) extension is
outside the allow-list is rejected with status 400 and a detail message
naming the allowed extensions, after the activity reset (`timerReset` is
true in the outcome) and after the readiness check (an unloaded model
yields 503 even for such a filename). -/
theorem transcribe_rejects_bad_extension (filename : Option String) (fmt : String)
    (inference : Except String WhisperResult) (uf : Bool)
    (h : file_ext filename ∉ allowed_extensions) :
    transcribe true filename fmt inference uf =
      ⟨true, false, false, false,
        Response.httpError 400
          ("Invalid file type. Allowed extensions: "
            ++ String.intercalate ", " allowed_extensions)⟩ ∧
    "Invalid file type. Allowed extensions: "
        ++ String.intercalate ", " allowed_extensions
      = "Invalid file type. Allowed extensions: .mp3, .wav, .webm, .ogg, .flac, .m4a, .mp4" ∧
    transcribe false filename fmt inference uf =
      ⟨true, false, false, false, Response.httpError 503 "Whisper model not loaded"⟩ := by
  refine ⟨?_, by decide, rfl⟩
  simp [transcribe, h]

theorem transcribe_rejects_bad_extension_witness :
    transcribe true (some "clip.mov") "verbose_json" (Except.ok ⟨"", [], []⟩) false =
      ⟨true, false, false, false,
        Response.httpError 400
          "Invalid file type. Allowed extensions: .mp3, .wav, .webm, .ogg, .flac, .m4a, .mp4"⟩ := by
  have h := transcribe_rejects_bad_extension (some "clip.mov") "verbose_json"
    (Except.ok ⟨"", [], []⟩) false (by decide)
  exact h.2.1 ▸ h.1

/-- C9: an inference exception is caught and turned into a 500 response
carrying the original message (never an unhandled fault: the outcome is a
response either way); the cleanup of the temporary file is attempted
exactly on the paths that created it; and a failing deletion never
changes the response. -/
theorem transcribe_inference_error_contained (filename : Option String)
    (fmt : String) (uf : Bool) (h : file_ext filename ∈ allowed_extensions) :
    (∀ msg, transcribe true filename fmt (Except.error msg) uf =
      ⟨true, true, true, !uf, Response.httpError 500 ("Transcription failed: " ++ msg)⟩) ∧
    (∀ mL fn fmt2 inf uf2, (transcribe mL fn fmt2 inf uf2).cleanupAttempted
        = (transcribe mL fn fmt2 inf uf2).tempCreated) ∧
    (∀ mL fn fmt2 inf, (transcribe mL fn fmt2 inf true).response
        = (transcribe mL fn fmt2 inf false).response) := by
  refine ⟨fun msg => by simp [transcribe, h], ?_, ?_⟩
  · intro mL fn fmt2 inf uf2
    cases mL <;> cases inf <;> simp [transcribe] <;> split_ifs <;> rfl
  · intro mL fn fmt2 inf
    cases mL <;> cases inf <;> simp [transcribe] <;> split_ifs <;> rfl

theorem transcribe_inference_error_contained_witness :
    transcribe true (some "a.mp3") "json" (Except.error "boom") false =
      ⟨true, true, true, true, Response.httpError 500 "Transcription failed: boom"⟩ :=
  (transcribe_inference_error_contained (some "a.mp3") "json" false (by decide)).1 "boom"

/-- C10: the srt and vtt response formats do not return the raw subtitle
text: the body is the two-field JSON object with the rendered string under
`text` and the format name under `format` (the `Body.subtitle`
constructor), as produced by the dispatch. -/
theorem formatResponse_subtitles_wrapped (result : WhisperResult) :
    formatResponse "srt" result = Body.subtitle (generate_srt result) "srt" ∧
    formatResponse "vtt" result = Body.subtitle (generate_vtt result) "vtt" :=
  ⟨rfl, rfl⟩

/-- C4: for every non-negative seconds value the SRT and VTT timestamp
strings share the prefix (hours, minutes, seconds) and the milliseconds
digits and differ only in the separator character before the milliseconds
(purity and determinism hold by construction: both formatters are
functions of the input value alone). -/
theorem timestamp_styles_differ_only_in_separator (s : ℚ) (h : 0 ≤ s) :
    ∃ pre post : String,
      format_timestamp_srt s = pre ++ "," ++ post ∧
      format_timestamp_vtt s = pre ++ "." ++ post :=
  ⟨formatInt 2 ⌊s / 3600⌋ ++ ":" ++ formatInt 2 ⌊pyMod s 3600 / 60⌋ ++ ":"
      ++ formatInt 2 ⌊pyMod s 60⌋,
    formatInt 3 ⌊pyMod s 1 * 1000⌋, rfl, rfl⟩

theorem timestamp_styles_differ_only_in_separator_witness :
    ∃ pre post : String,
      format_timestamp_srt 0 = pre ++ "," ++ post ∧
      format_timestamp_vtt 0 = pre ++ "." ++ post :=
  timestamp_styles_differ_only_in_separator 0 le_rfl

/-- Helper: `pyMod a m` is `m` times the fractional part of `a / m`. -/
theorem pyMod_eq_fract_mul (a m : ℚ) (hm : m ≠ 0) :
    pyMod a m = m * Int.fract (a / m) := by
  have hc : m * (a / m) = a := by field_simp
  unfold pyMod Int.fract
  rw [mul_sub, hc]

/-- Helper: Python `%` with a positive modulus is non-negative. -/
theorem pyMod_nonneg (a m : ℚ) (hm : 0 < m) : 0 ≤ pyMod a m := by
  rw [pyMod_eq_fract_mul a m (ne_of_gt hm)]
  exact mul_nonneg hm.le (Int.fract_nonneg _)

/-- Helper: Python `%` with a positive modulus is below the modulus. -/
theorem pyMod_lt (a m : ℚ) (hm : 0 < m) : pyMod a m < m := by
  rw [pyMod_eq_fract_mul a m (ne_of_gt hm)]
  calc m * Int.fract (a / m) < m * 1 :=
        mul_lt_mul_of_pos_left (Int.fract_lt_one _) hm
    _ = m := mul_one m

/-- C6 counterexample: a negative seconds value is not rejected: both
formatters return an ordinary formatted string for it. -/
theorem format_timestamp_negative_returns_string :
    format_timestamp_srt (-1) = "-1:59:59,000" ∧
    format_timestamp_vtt (-1) = "-1:59:59.000" := by
  have h1 : ⌊(-1 : ℚ) / 3600⌋ = -1 := by norm_num
  have h2 : ⌊pyMod (-1 : ℚ) 3600 / 60⌋ = 59 := by norm_num [pyMod]
  have h3 : ⌊pyMod (-1 : ℚ) 60⌋ = 59 := by norm_num [pyMod]
  have h4 : ⌊pyMod (-1 : ℚ) 1 * 1000⌋ = 0 := by norm_num [pyMod]
  constructor
  · simp only [format_timestamp_srt, h1, h2, h3, h4]
    decide
  · simp only [format_timestamp_vtt, h1, h2, h3, h4]
    decide

/-- C6 (amended): the formatters perform no input validation: a negative
seconds value yields a formatted string rather than any failure, with a
negative hours component while the minute, second and millisecond
components still fall in their usual ranges (Python's `%` with a positive
modulus is non-negative). -/
theorem format_timestamp_negative_no_validation (s : ℚ) (h : s < 0) :
    format_timestamp_srt s =
      formatInt 2 ⌊s / 3600⌋ ++ ":" ++ formatInt 2 ⌊pyMod s 3600 / 60⌋ ++ ":"
        ++ formatInt 2 ⌊pyMod s 60⌋ ++ "," ++ formatInt 3 ⌊pyMod s 1 * 1000⌋ ∧
    format_timestamp_vtt s =
      formatInt 2 ⌊s / 3600⌋ ++ ":" ++ formatInt 2 ⌊pyMod s 3600 / 60⌋ ++ ":"
        ++ formatInt 2 ⌊pyMod s 60⌋ ++ "." ++ formatInt 3 ⌊pyMod s 1 * 1000⌋ ∧
    ⌊s / 3600⌋ < 0 ∧
    0 ≤ ⌊pyMod s 3600 / 60⌋ ∧ ⌊pyMod s 3600 / 60⌋ < 60 ∧
    0 ≤ ⌊pyMod s 60⌋ ∧ ⌊pyMod s 60⌋ < 60 ∧
    0 ≤ ⌊pyMod s 1 * 1000⌋ ∧ ⌊pyMod s 1 * 1000⌋ < 1000 := by
  refine ⟨rfl, rfl, ?_, ?_, ?_, ?_, ?_, ?_, ?_⟩
  · rw [Int.floor_lt]
    push_cast
    exact div_neg_of_neg_of_pos h (by norm_num)
  · exact Int.floor_nonneg.mpr
      (div_nonneg (pyMod_nonneg s 3600 (by norm_num)) (by norm_num))
  · rw [Int.floor_lt]
    push_cast
    rw [div_lt_iff₀ (by norm_num : (0 : ℚ) < 60)]
    have := pyMod_lt s 3600 (by norm_num)
    linarith
  · exact Int.floor_nonneg.mpr (pyMod_nonneg s 60 (by norm_num))
  · rw [Int.floor_lt]
    push_cast
    exact pyMod_lt s 60 (by norm_num)
  · exact Int.floor_nonneg.mpr
      (mul_nonneg (pyMod_nonneg s 1 one_pos) (by norm_num))
  · rw [Int.floor_lt]
    push_cast
    have := pyMod_lt s 1 one_pos
    nlinarith

theorem format_timestamp_negative_no_validation_witness :
    ⌊(-1 : ℚ) / 3600⌋ < 0 :=
  (format_timestamp_negative_no_validation (-1) (by norm_num)).2.2.1

/-- Helper: the floor of `(k + f) / d` with `k, d` natural, `d` positive,
and `0 ≤ f < 1` is the natural floor-division `k / d`. -/
theorem floor_nat_add_fract_div (k d : ℕ) (hd : 0 < d) (f : ℚ)
    (hf0 : 0 ≤ f) (hf1 : f < 1) :
    ⌊((k : ℚ) + f) / (d : ℚ)⌋ = ((k / d : ℕ) : ℤ) := by
  have hdq : (0 : ℚ) < (d : ℚ) := by exact_mod_cast hd
  have hk : (k : ℚ) = (d : ℚ) * ((k / d : ℕ) : ℚ) + ((k % d : ℕ) : ℚ) := by
    exact_mod_cast (Nat.div_add_mod k d).symm
  have hr1 : ((k % d : ℕ) : ℚ) + 1 ≤ (d : ℚ) := by
    exact_mod_cast Nat.succ_le_of_lt (Nat.mod_lt k hd)
  have hr0 : (0 : ℚ) ≤ ((k % d : ℕ) : ℚ) := by positivity
  rw [Int.floor_eq_iff, Int.cast_natCast]
  constructor
  · rw [le_div_iff₀ hdq, hk]
    nlinarith
  · rw [div_lt_iff₀ hdq, hk]
    nlinarith

/-- Helper: Python `%` of `k + f` by a positive natural `d` keeps the
fractional part and reduces `k` modulo `d`. -/
theorem pyMod_nat_add_fract (k d : ℕ) (hd : 0 < d) (f : ℚ)
    (hf0 : 0 ≤ f) (hf1 : f < 1) :
    pyMod ((k : ℚ) + f) (d : ℚ) = ((k % d : ℕ) : ℚ) + f := by
  unfold pyMod
  rw [floor_nat_add_fract_div k d hd f hf0 hf1, Int.cast_natCast]
  have hdm : (d : ℚ) * ((k / d : ℕ) : ℚ) + ((k % d : ℕ) : ℚ) = (k : ℚ) := by
    exact_mod_cast Nat.div_add_mod k d
  linarith

/-- Helper: Python zero-padded rendering of a natural number. -/
theorem formatInt_natCast (w : Nat) (m : ℕ) :
    formatInt w ((m : ℕ) : ℤ) = zfill w (toString m) := by
  unfold formatInt
  rw [if_neg (not_lt.mpr (Int.natCast_nonneg m))]
  simp [Int.natAbs_ofNat]

/-- Helper: the length of a zero-padded string. -/
theorem zfill_length (w : Nat) (s : String) :
    (zfill w s).length = max w s.length := by
  unfold zfill
  split_ifs with hw
  · omega
  · rw [String.length_append]
    have hrep : (String.mk (List.replicate (w - s.length) '0')).length
        = w - s.length := by
      show (List.replicate (w - s.length) '0').length = w - s.length
      exact List.length_replicate _ _
    omega

/-- Helper: a natural number below 100 prints in at most two digits. -/
theorem toString_nat_length_le_two : ∀ m : ℕ, m < 100 → (toString m).length ≤ 2 := by
  decide

set_option maxRecDepth 10000 in
/-- Helper: a natural number below 1000 prints in at most three digits. -/
theorem toString_nat_length_le_three : ∀ m : ℕ, m < 1000 → (toString m).length ≤ 3 := by
  decide

/-- C5: for every non-negative seconds value the formatters render the
unique decomposition into hours, minutes (< 60), whole seconds (< 60) and
milliseconds (< 1000, the floor of one thousand times the fractional
part), each zero-padded to its fixed width: minutes, seconds and
milliseconds come out exactly 2, 2 and 3 characters wide and hours at
least 2. -/
theorem timestamp_decomposition (s : ℚ) (h : 0 ≤ s) :
    ∃ hh mm ss ms : ℕ,
      mm < 60 ∧ ss < 60 ∧ ms < 1000 ∧
      ((hh * 3600 + mm * 60 + ss : ℕ) : ℚ) + (ms : ℚ) / 1000 ≤ s ∧
      s < ((hh * 3600 + mm * 60 + ss : ℕ) : ℚ) + ((ms : ℚ) + 1) / 1000 ∧
      format_timestamp_srt s =
        zfill 2 (toString hh) ++ ":" ++ zfill 2 (toString mm) ++ ":"
          ++ zfill 2 (toString ss) ++ "," ++ zfill 3 (toString ms) ∧
      format_timestamp_vtt s =
        zfill 2 (toString hh) ++ ":" ++ zfill 2 (toString mm) ++ ":"
          ++ zfill 2 (toString ss) ++ "." ++ zfill 3 (toString ms) ∧
      (zfill 2 (toString mm)).length = 2 ∧
      (zfill 2 (toString ss)).length = 2 ∧
      (zfill 3 (toString ms)).length = 3 ∧
      2 ≤ (zfill 2 (toString hh)).length := by
  have hfl : (0 : ℤ) ≤ ⌊s⌋ := Int.floor_nonneg.mpr h
  set n : ℕ := ⌊s⌋.toNat with hn
  set f : ℚ := Int.fract s with hf
  have hf0 : 0 ≤ f := Int.fract_nonneg s
  have hf1 : f < 1 := Int.fract_lt_one s
  have hs : s = (n : ℚ) + f := by
    have h1 : ((n : ℕ) : ℚ) = ((⌊s⌋ : ℤ) : ℚ) := by
      rw [hn]
      exact_mod_cast Int.toNat_of_nonneg hfl
    rw [h1, hf, Int.floor_add_fract]
  have H1 : ⌊s / 3600⌋ = ((n / 3600 : ℕ) : ℤ) := by
    rw [hs]
    have := floor_nat_add_fract_div n 3600 (by norm_num) f hf0 hf1
    exact_mod_cast this
  have Hm3600 : pyMod s 3600 = ((n % 3600 : ℕ) : ℚ) + f := by
    rw [hs]
    have := pyMod_nat_add_fract n 3600 (by norm_num) f hf0 hf1
    exact_mod_cast this
  have H2 : ⌊pyMod s 3600 / 60⌋ = ((n % 3600 / 60 : ℕ) : ℤ) := by
    rw [Hm3600]
    have := floor_nat_add_fract_div (n % 3600) 60 (by norm_num) f hf0 hf1
    exact_mod_cast this
  have Hm60 : pyMod s 60 = ((n % 60 : ℕ) : ℚ) + f := by
    rw [hs]
    have := pyMod_nat_add_fract n 60 (by norm_num) f hf0 hf1
    exact_mod_cast this
  have H3 : ⌊pyMod s 60⌋ = ((n % 60 : ℕ) : ℤ) := by
    rw [Hm60, add_comm, Int.floor_add_nat,
      Int.floor_eq_zero_iff.mpr (Set.mem_Ico.mpr ⟨hf0, hf1⟩), zero_add]
  have Hm1 : pyMod s 1 = f := by
    rw [hs]
    have := pyMod_nat_add_fract n 1 one_pos f hf0 hf1
    rw [Nat.mod_one] at this
    simpa using this
  have hms0 : (0 : ℤ) ≤ ⌊f * 1000⌋ := Int.floor_nonneg.mpr (by positivity)
  have H4 : ⌊pyMod s 1 * 1000⌋ = ((⌊f * 1000⌋.toNat : ℕ) : ℤ) := by
    rw [Hm1, Int.toNat_of_nonneg hms0]
  have hmslt : ⌊f * 1000⌋ < 1000 := by
    rw [Int.floor_lt]
    push_cast
    nlinarith
  have hmsle : ((⌊f * 1000⌋.toNat : ℕ) : ℚ) ≤ f * 1000 := by
    rw [show ((⌊f * 1000⌋.toNat : ℕ) : ℚ) = ((⌊f * 1000⌋ : ℤ) : ℚ) by
      exact_mod_cast Int.toNat_of_nonneg hms0]
    exact Int.floor_le (f * 1000)
  have hmslt' : f * 1000 < ((⌊f * 1000⌋.toNat : ℕ) : ℚ) + 1 := by
    rw [show ((⌊f * 1000⌋.toNat : ℕ) : ℚ) = ((⌊f * 1000⌋ : ℤ) : ℚ) by
      exact_mod_cast Int.toNat_of_nonneg hms0]
    exact Int.lt_floor_add_one (f * 1000)
  have hsum : (n / 3600 * 3600 + n % 3600 / 60 * 60 + n % 60 : ℕ) = n := by
    omega
  refine ⟨n / 3600, n % 3600 / 60, n % 60, ⌊f * 1000⌋.toNat,
    by omega, by omega, by omega, ?_, ?_, ?_, ?_, ?_, ?_, ?_, ?_⟩
  · rw [hsum, hs]
    have : ((⌊f * 1000⌋.toNat : ℕ) : ℚ) / 1000 ≤ f := by
      rw [div_le_iff₀ (by norm_num : (0 : ℚ) < 1000)]
      nlinarith
    linarith
  · rw [hsum, hs]
    have : f < (((⌊f * 1000⌋.toNat : ℕ) : ℚ) + 1) / 1000 := by
      rw [lt_div_iff₀ (by norm_num : (0 : ℚ) < 1000)]
      nlinarith
    linarith
  · simp only [format_timestamp_srt]
    rw [H1, H2, H3, H4, formatInt_natCast, formatInt_natCast, formatInt_natCast,
      formatInt_natCast]
  · simp only [format_timestamp_vtt]
    rw [H1, H2, H3, H4, formatInt_natCast, formatInt_natCast, formatInt_natCast,
      formatInt_natCast]
  · have := toString_nat_length_le_two (n % 3600 / 60) (by omega)
    rw [zfill_length]
    omega
  · have := toString_nat_length_le_two (n % 60) (by omega)
    rw [zfill_length]
    omega
  · have := toString_nat_length_le_three ⌊f * 1000⌋.toNat (by omega)
    rw [zfill_length]
    omega
  · rw [zfill_length]
    omega

theorem timestamp_decomposition_witness :
    ∃ hh mm ss ms : ℕ,
      mm < 60 ∧ ss < 60 ∧ ms < 1000 ∧
      ((hh * 3600 + mm * 60 + ss : ℕ) : ℚ) + (ms : ℚ) / 1000 ≤ 0 ∧
      (0 : ℚ) < ((hh * 3600 + mm * 60 + ss : ℕ) : ℚ) + ((ms : ℚ) + 1) / 1000 ∧
      format_timestamp_srt 0 =
        zfill 2 (toString hh) ++ ":" ++ zfill 2 (toString mm) ++ ":"
          ++ zfill 2 (toString ss) ++ "," ++ zfill 3 (toString ms) ∧
      format_timestamp_vtt 0 =
        zfill 2 (toString hh) ++ ":" ++ zfill 2 (toString mm) ++ ":"
          ++ zfill 2 (toString ss) ++ "." ++ zfill 3 (toString ms) ∧
      (zfill 2 (toString mm)).length = 2 ∧
      (zfill 2 (toString ss)).length = 2 ∧
      (zfill 3 (toString ms)).length = 3 ∧
      2 ≤ (zfill 2 (toString hh)).length :=
  timestamp_decomposition 0 le_rfl

/-- Helper: the length of a flat map of four-entry blocks over an
enumeration is four times the list length. -/
theorem flatMap_enumFrom_length {α β : Type} (f : ℕ × α → List β)
    (hf : ∀ p, (f p).length = 4) :
    ∀ (l : List α) (i0 : ℕ), ((List.enumFrom i0 l).flatMap f).length = 4 * l.length := by
  intro l
  induction l with
  | nil => intro i0; rfl
  | cons x xs ih =>
    intro i0
    show (f (i0, x) ++ (List.enumFrom (i0 + 1) xs).flatMap f).length = 4 * (xs.length + 1)
    rw [List.length_append, hf, ih (i0 + 1)]
    omega

/-- Helper: in a flat map of four-entry blocks over an enumeration
starting at `i0`, the block of element `j` occupies positions
`4 * j` through `4 * j + 3` and is the block of `(i0 + j, element)`. -/
theorem flatMap_enumFrom_getElem {α β : Type} (f : ℕ × α → List β)
    (hf : ∀ p, (f p).length = 4) :
    ∀ (l : List α) (i0 j k : ℕ) (a : α), l[j]? = some a → k < 4 →
      ((List.enumFrom i0 l).flatMap f)[4 * j + k]? = (f (i0 + j, a))[k]? := by
  intro l
  induction l with
  | nil => intro i0 j k a hj hk; simp at hj
  | cons x xs ih =>
    intro i0 j k a hj hk
    cases j with
    | zero =>
      rw [List.getElem?_cons_zero, Option.some.injEq] at hj
      subst hj
      show ((f (i0, x) ++ (List.enumFrom (i0 + 1) xs).flatMap f))[4 * 0 + k]?
        = (f (i0 + 0, x))[k]?
      rw [Nat.mul_zero, Nat.zero_add, Nat.add_zero]
      exact List.getElem?_append_left (by rw [hf]; exact hk)
    | succ j' =>
      rw [List.getElem?_cons_succ] at hj
      show ((f (i0, x) ++ (List.enumFrom (i0 + 1) xs).flatMap f))[4 * (j' + 1) + k]?
        = (f (i0 + (j' + 1), a))[k]?
      rw [List.getElem?_append_right (by rw [hf]; omega), hf]
      rw [show 4 * (j' + 1) + k - 4 = 4 * j' + k from by omega]
      rw [show i0 + (j' + 1) = i0 + 1 + j' from by omega]
      exact ih (i0 + 1) j' k a hj hk

/-- C3: the SRT rendering is the newline-join of the line list, which for
`N` segments holds exactly `4 * N` entries; the block of segment `j`
(0-based) is the 1-based caption index `j + 1`, the time range line, the
stripped text, and a blank separator; and the claim's example segment
values render as expected. -/
theorem generate_srt_blocks (r : WhisperResult) :
    generate_srt r = String.intercalate "\n" (srt_lines r) ∧
    (srt_lines r).length = 4 * r.segments.length ∧
    (∀ j seg, r.segments[j]? = some seg →
      (srt_lines r)[4 * j]? = some (toString (j + 1)) ∧
      (srt_lines r)[4 * j + 1]?
        = some (format_timestamp_srt seg.start ++ " --> "
            ++ format_timestamp_srt seg.«end») ∧
      (srt_lines r)[4 * j + 2]? = some (pyStrip seg.text) ∧
      (srt_lines r)[4 * j + 3]? = some "") ∧
    format_timestamp_srt 65.5 ++ " --> " ++ format_timestamp_srt 70.25
      = "00:01:05,500 --> 00:01:10,250" ∧
    pyStrip " hello " = "hello" := by
  have hlen : ∀ p : ℕ × Segment, ((fun q : ℕ × Segment =>
      [toString q.1,
       format_timestamp_srt q.2.start ++ " --> " ++ format_timestamp_srt q.2.«end»,
       pyStrip q.2.text,
       ""]) p).length = 4 := fun p => rfl
  refine ⟨rfl, flatMap_enumFrom_length _ hlen r.segments 1, ?_, ?_, by decide⟩
  · intro j seg hj
    have h0 := flatMap_enumFrom_getElem _ hlen r.segments 1 j 0 seg hj (by omega)
    have h1 := flatMap_enumFrom_getElem _ hlen r.segments 1 j 1 seg hj (by omega)
    have h2 := flatMap_enumFrom_getElem _ hlen r.segments 1 j 2 seg hj (by omega)
    have h3 := flatMap_enumFrom_getElem _ hlen r.segments 1 j 3 seg hj (by omega)
    rw [show 1 + j = j + 1 from Nat.add_comm 1 j] at h0 h1 h2 h3
    exact ⟨h0, h1, h2, h3⟩
  · have ha : format_timestamp_srt 65.5 = "00:01:05,500" := by
      have h1 : ⌊(65.5 : ℚ) / 3600⌋ = 0 := by norm_num
      have h2 : ⌊pyMod (65.5 : ℚ) 3600 / 60⌋ = 1 := by norm_num [pyMod]
      have h3 : ⌊pyMod (65.5 : ℚ) 60⌋ = 5 := by norm_num [pyMod]
      have h4 : ⌊pyMod (65.5 : ℚ) 1 * 1000⌋ = 500 := by norm_num [pyMod]
      simp only [format_timestamp_srt, h1, h2, h3, h4]
      decide
    have hb : format_timestamp_srt 70.25 = "00:01:10,250" := by
      have h1 : ⌊(70.25 : ℚ) / 3600⌋ = 0 := by norm_num
      have h2 : ⌊pyMod (70.25 : ℚ) 3600 / 60⌋ = 1 := by norm_num [pyMod]
      have h3 : ⌊pyMod (70.25 : ℚ) 60⌋ = 10 := by norm_num [pyMod]
      have h4 : ⌊pyMod (70.25 : ℚ) 1 * 1000⌋ = 250 := by norm_num [pyMod]
      simp only [format_timestamp_srt, h1, h2, h3, h4]
      decide
    rw [ha, hb]
    decide
